import Mathlib

/-!
Verification of the garage layout optimization engine
(`Garage_Optimizer.py`): data model, constraint generation, zone demand
planning, greedy placement, overhead pass and scoring, embedded over ℚ
(Python floats carry exact decimal values in all relevant code paths).
-/

namespace Garage

/-! ## String helpers (Python `in` substring test and `.lower()`) -/

/-- Prefix test: `charListHasPre hay needle` is true when `needle` is a prefix of `hay`. -/
def charListHasPre : List Char → List Char → Bool
  | _, [] => true
  | [], _ :: _ => false
  | a :: as, b :: bs => a == b && charListHasPre as bs

/-- Substring test: `charListHasSub hay needle` is true when `needle` occurs contiguously in `hay`. -/
def charListHasSub (hay needle : List Char) : Bool :=
  match hay with
  | [] => charListHasPre [] needle
  | c :: t => charListHasPre (c :: t) needle || charListHasSub t needle

/-- Python `needle in hay` on strings. -/
def strHasSub (hay needle : String) : Bool :=
  charListHasSub hay.toList needle.toList

/-- Python `.lower()` (all strings involved are ASCII). -/
def strToLower (s : String) : String := String.mk (s.data.map Char.toLower)

/-- Stable insertion used by `pyStableSort`: `x` is placed after every element
it does not strictly precede in the `le` order. -/
def stableInsert (le : α → α → Bool) (x : α) : List α → List α
  | [] => [x]
  | y :: ys => if le x y && !(le y x) then x :: y :: ys else y :: stableInsert le x ys

/-- Python's stable `list.sort` with a total boolean `le`: elements that
compare equal keep their original relative order. -/
def pyStableSort (le : α → α → Bool) (l : List α) : List α :=
  l.foldl (fun acc x => stableInsert le x acc) []

/-! ## Rational helpers (Python `int()`, `//`, float formatting) -/

/-- Floor of a rational, computed with `Nat` division. -/
def ratFloor (q : ℚ) : Int :=
  if 0 ≤ q then Int.ofNat (q.num.toNat / q.den)
  else -(Int.ofNat (((-q).num.toNat + (-q).den - 1) / (-q).den))

/-- Python `int()` applied to a rational: truncation toward zero. -/
def ratTrunc (q : ℚ) : Int :=
  if 0 ≤ q then ratFloor q else -(ratFloor (-q))

/-- Python's `"{:.0f}"` float formatting rounds half to even. -/
def ratRoundF0 (q : ℚ) : Int :=
  let f := ratFloor q
  let r := q - f
  if r < 1/2 then f else if 1/2 < r then f + 1 else if f % 2 = 0 then f else f + 1

/-- Comparison definition following the spec's words, not the source: the
spec's `round(count×1.5)` read as Python's `round`, which rounds half to
even. -/
def specRoundHalfToEven (q : ℚ) : Int :=
  let f := ratFloor q
  let r := q - f
  if r < 1/2 then f else if 1/2 < r then f + 1 else if f % 2 = 0 then f else f + 1

/-- The ASCII apostrophe character used as the feet mark by the Python f-strings. -/
def feetMark : String := String.singleton (Char.ofNat 39)

/-- The source's `inches_to_feet_str`: convert inches to a feet/inches string. -/
def inches_to_feet_str (inches : ℚ) : String :=
  let feet : Int := ratFloor (inches / 12)
  let remaining : ℚ := inches - 12 * feet
  if remaining = 0 then toString feet ++ feetMark
  else if feet = 0 then toString (ratRoundF0 remaining) ++ "\""
  else toString feet ++ feetMark ++ " " ++ toString (ratRoundF0 remaining) ++ "\""

/-! ## Data structures -/

/-- The `ZoneType` enum from the source. -/
inductive ZoneType where
  | vehicle
  | workbench
  | wall_storage
  | overhead_storage
  | floor_storage
  | clearance
deriving DecidableEq, Repr

/-- The `Zone` dataclass: a functional zone in the garage. -/
structure Zone where
  zone_type : ZoneType
  name : String
  x : ℚ
  y : ℚ
  width : ℚ
  depth : ℚ
  wall : String := ""
  priority : Int := 3
  notes : String := ""
deriving DecidableEq, Repr

/-- The `Constraint` dataclass: a clearance rectangle derived from a feature. -/
structure Constraint where
  constraint_type : String
  x : ℚ
  y : ℚ
  width : ℚ
  depth : ℚ
  wall : String
  description : String
deriving DecidableEq, Repr

/-- A wall/floor feature dict: keys `name`, `position`, `width`, `type`
(`type` is spelled `ftype` here). -/
structure Feature where
  name : String
  position : ℚ
  width : ℚ
  ftype : String
deriving DecidableEq, Repr

/-- The `GarageSpace` dataclass: parsed garage dimensions and features. -/
structure GarageSpace where
  width : ℚ
  depth : ℚ
  ceiling_height : ℚ
  north_features : List Feature := []
  east_features : List Feature := []
  south_features : List Feature := []
  west_features : List Feature := []
  floor_features : List Feature := []
deriving DecidableEq, Repr

/-- One entry of `profile.vehicles`. `length`/`width` hold the inches value of
the measurement string when present and parseable (`measurement_to_inches`
result); `none` reproduces the `or 180` / `or 72` fallback. -/
structure VehicleInfo where
  length : Option ℚ := none
  width : Option ℚ := none
  must_fit_inside : Bool := false
  year : String := ""
  make : String := ""
  model : String := ""
deriving DecidableEq, Repr

/-- One entry of `profile.storage_categories` (`needs_accessibility` key,
default `""`). -/
structure StorageCategory where
  needs_accessibility : String := ""
deriving DecidableEq, Repr

/-- One entry of `profile.work_activities` (`space_needed` key, default `""`). -/
structure WorkActivity where
  space_needed : String := ""
deriving DecidableEq, Repr

/-- The priority keys the engine reads (`priorities.get(key, default)`);
`none` means the key is absent. -/
structure Priorities where
  vehicle_storage : Option Int := none
  workspace : Option Int := none
  general_storage : Option Int := none
deriving DecidableEq, Repr

/-- The preference flags the engine reads (`preferences.get(key, default)`);
`none` means the key is absent. -/
structure Preferences where
  wall_storage : Option Bool := none
  overhead_storage : Option Bool := none
deriving DecidableEq, Repr

/-- The `UsageProfile` dataclass. -/
structure UsageProfile where
  vehicles : List VehicleInfo := []
  storage_categories : List StorageCategory := []
  work_activities : List WorkActivity := []
  priorities : Priorities := {}
  preferences : Preferences := {}
  notes : String := ""
deriving DecidableEq, Repr

/-- The `LayoutRecommendation` dataclass. -/
structure LayoutRecommendation where
  zones : List Zone := []
  constraints : List Constraint := []
  reasoning : List String := []
  warnings : List String := []
  score : ℚ := 0
deriving DecidableEq, Repr

/-! ## Layout constants -/

/-- The clearance table lookup `CLEARANCES.get(key, 24)` with its dict-miss default. -/
def clearanceFor (key : String) : ℚ :=
  if key = "garage_door" then 36
  else if key = "entry_door" then 36
  else if key = "service_door" then 36
  else if key = "electrical_panel" then 36
  else if key = "water_heater" then 24
  else if key = "furnace" then 24
  else if key = "window" then 6
  else if key = "vehicle_side" then 24
  else if key = "vehicle_front" then 12
  else if key = "vehicle_rear" then 12
  else if key = "workbench_front" then 36
  else if key = "walkway" then 30
  else 24

/-- A width/depth pair from `ZONE_SIZES`. -/
structure Size where
  width : ℚ
  depth : ℚ
deriving DecidableEq, Repr

/-- The `ZONE_SIZES` lookup (all uses in the source hit an existing key). -/
def zoneSizes (key : String) : Size :=
  if key = "workbench_small" then ⟨48, 24⟩
  else if key = "workbench_medium" then ⟨72, 30⟩
  else if key = "workbench_large" then ⟨96, 30⟩
  else if key = "wall_storage_section" then ⟨48, 18⟩
  else if key = "overhead_storage" then ⟨48, 96⟩
  else ⟨0, 0⟩

/-! ## Collision predicate and clearance check -/

/-- The source's `rectangles_overlap`. -/
def rectangles_overlap (x1 y1 w1 h1 x2 y2 w2 h2 : ℚ) : Bool :=
  !(decide (x1 + w1 ≤ x2) || decide (x2 + w2 ≤ x1) ||
    decide (y1 + h1 ≤ y2) || decide (y2 + h2 ≤ y1))

/-- The source's `position_is_clear`: bounds check, then constraints, then
placed zones. -/
def position_is_clear (x y width depth : ℚ) (garage : GarageSpace)
    (constraints : List Constraint) (placed_zones : List Zone) : Bool :=
  if decide (x < 0) || decide (y < 0) then false
  else if decide (garage.width < x + width) || decide (garage.depth < y + depth) then false
  else if constraints.any (fun c =>
      rectangles_overlap x y width depth c.x c.y c.width c.depth) then false
  else if placed_zones.any (fun z =>
      rectangles_overlap x y width depth z.x z.y z.width z.depth) then false
  else true

/-! ## Constraint generation -/

/-- The body of `add_wall_constraints` for one feature: the constraint rectangle
for `feature` on `wall`, or `none` for an unrecognized wall tag (the
`else: continue` branch, unreachable from `generate_constraints`). -/
def mkWallConstraint (garage : GarageSpace) (wall : String) (feature : Feature) :
    Option Constraint :=
  let pos := feature.position
  let width := feature.width
  let name := feature.name
  let ftype := strToLower feature.ftype
  let clearance := clearanceFor ftype
  let base : Option (ℚ × ℚ × ℚ × ℚ) :=
    if wall = "N" then some (pos - width / 2, 0, width, clearance)
    else if wall = "S" then some (pos - width / 2, garage.depth - clearance, width, clearance)
    else if wall = "E" then some (garage.width - clearance, pos - width / 2, clearance, width)
    else if wall = "W" then some (0, pos - width / 2, clearance, width)
    else none
  match base with
  | none => none
  | some (x, y, c_width, c_depth) =>
    let yd : ℚ × ℚ :=
      if strHasSub ftype "garage_door" || strHasSub (strToLower name) "garage door" then
        if wall = "S" then (garage.depth - 60, 60)
        else if wall = "N" then (0, 60)
        else (y, c_depth)
      else (y, c_depth)
    some { constraint_type := ftype, x := max 0 x, y := max 0 yd.1,
           width := c_width, depth := yd.2, wall := wall,
           description := name ++ " - keep " ++ inches_to_feet_str clearance ++ " clear" }

/-- The source's `generate_constraints`: north, east, south, west walls in
order, one constraint per feature. -/
def generate_constraints (garage : GarageSpace) : List Constraint :=
  garage.north_features.filterMap (mkWallConstraint garage "N")
  ++ garage.east_features.filterMap (mkWallConstraint garage "E")
  ++ garage.south_features.filterMap (mkWallConstraint garage "S")
  ++ garage.west_features.filterMap (mkWallConstraint garage "W")

/-! ## Zone demand planning (Step 2 of `optimize_layout`) -/

/-- One entry of the `zones_needed` list: a zone demand dict. The
`vehicle_index` / `total_vehicles` keys are present only for vehicles; `0`
reproduces `zone_spec.get(key, 0)` for the others. -/
structure ZoneSpec where
  ztype : ZoneType
  name : String
  width : ℚ
  depth : ℚ
  priority : Int
  vehicle_index : Nat := 0
  total_vehicles : Nat := 0
deriving DecidableEq, Repr

/-- Vehicle demands: one per `must_fit_inside` vehicle, with side clearance
doubled for a single car. -/
def vehicleDemands (profile : UsageProfile) : List ZoneSpec :=
  let vehicles_must_fit := profile.vehicles.filter (fun v => v.must_fit_inside)
  let num_vehicles := vehicles_must_fit.length
  vehicles_must_fit.enum.map (fun iv =>
    let vehicle := iv.2
    let v_length := vehicle.length.getD 180
    let v_width := vehicle.width.getD 72
    let side_clearance :=
      if num_vehicles = 1 then clearanceFor "vehicle_side" * 2
      else clearanceFor "vehicle_side"
    { ztype := ZoneType.vehicle,
      name := (vehicle.year ++ " " ++ vehicle.make ++ " " ++ vehicle.model).trim,
      width := v_width + side_clearance,
      depth := v_length + clearanceFor "vehicle_front" + clearanceFor "vehicle_rear",
      priority := profile.priorities.vehicle_storage.getD 3,
      vehicle_index := iv.1,
      total_vehicles := num_vehicles })

/-- Workbench demand: created when work activities exist or workspace
priority ≥ 3, sized by the priority/activity tier rules. -/
def workbenchDemands (profile : UsageProfile) : List ZoneSpec :=
  if profile.work_activities ≠ [] ∨ 3 ≤ profile.priorities.workspace.getD 0 then
    let workspace_priority := profile.priorities.workspace.getD 3
    let needs_large := profile.work_activities.any (fun a =>
      strToLower a.space_needed == "medium" || strToLower a.space_needed == "large")
    let wb_size :=
      if 5 ≤ workspace_priority ∨ (4 ≤ workspace_priority ∧ needs_large = true) then
        zoneSizes "workbench_large"
      else if needs_large = true ∨ 4 ≤ workspace_priority then
        zoneSizes "workbench_medium"
      else zoneSizes "workbench_small"
    [{ ztype := ZoneType.workbench, name := "Workbench",
       width := wb_size.width,
       depth := wb_size.depth + clearanceFor "workbench_front",
       priority := profile.priorities.workspace.getD 3 }]
  else []

/-- Wall storage demands: `base = 2 + categories + 2·daily + weekly`, then
tiered by general-storage priority (`int()` truncation for the ×1.5 tier). -/
def wallStorageDemands (profile : UsageProfile) : List ZoneSpec :=
  if profile.preferences.wall_storage.getD true = true then
    let storage_count := profile.storage_categories.length
    let storage_priority := profile.priorities.general_storage.getD 3
    let daily_access :=
      (profile.storage_categories.filter (fun s => s.needs_accessibility == "daily")).length
    let weekly_access :=
      (profile.storage_categories.filter (fun s => s.needs_accessibility == "weekly")).length
    let base_sections : Int := 2 + storage_count + (daily_access * 2) + weekly_access
    let sections_needed : Int :=
      if 5 ≤ storage_priority then 20
      else if 4 ≤ storage_priority then min 15 (ratTrunc ((base_sections : ℚ) * (3 / 2)))
      else min 8 base_sections
    (List.range sections_needed.toNat).map (fun i =>
      { ztype := ZoneType.wall_storage, name := "Wall Storage " ++ toString (i + 1),
        width := (zoneSizes "wall_storage_section").width,
        depth := (zoneSizes "wall_storage_section").depth,
        priority := profile.priorities.general_storage.getD 3 })
  else []

/-- The `zones_needed` list in generation order: vehicles, workbench, wall
storage. -/
def zonesNeeded (profile : UsageProfile) : List ZoneSpec :=
  vehicleDemands profile ++ workbenchDemands profile ++ wallStorageDemands profile

/-- Number of WALL_STORAGE demands among the generated demands. -/
def wallStorageDemandCount (profile : UsageProfile) : Nat :=
  ((zonesNeeded profile).filter (fun s => s.ztype == ZoneType.wall_storage)).length

/-! ## Placement strategies -/

/-- The `positions_to_try` list of `find_vehicle_position`. -/
def vehiclePositionsToTry (garage : GarageSpace) (placed_zones : List Zone)
    (width depth : ℚ) (zone_spec : ZoneSpec) : List (ℚ × ℚ) :=
  let total_vehicles := zone_spec.total_vehicles
  let placed_vehicles := placed_zones.filter (fun z => z.zone_type == ZoneType.vehicle)
  if total_vehicles = 1 then
    [((garage.width - width) / 2, garage.depth - depth),
     (clearanceFor "walkway", garage.depth - depth),
     (garage.width - width - clearanceFor "walkway", garage.depth - depth)]
  else
    match placed_vehicles.getLast? with
    | none => [(clearanceFor "walkway", garage.depth - depth)]
    | some last_vehicle => [(last_vehicle.x + last_vehicle.width + 12, garage.depth - depth)]

/-- The acceptance test applied to one candidate in `find_vehicle_position`:
in bounds, no overlap with a non-garage-door constraint, no overlap with a
placed zone. -/
def vehicleCandidateOk (garage : GarageSpace) (constraints : List Constraint)
    (placed_zones : List Zone) (width depth x y : ℚ) : Bool :=
  if decide (x < 0) || decide (y < 0) then false
  else if decide (garage.width < x + width) || decide (garage.depth < y + depth) then false
  else if constraints.any (fun c =>
      rectangles_overlap x y width depth c.x c.y c.width c.depth &&
      !(strHasSub c.constraint_type "garage_door")) then false
  else if placed_zones.any (fun z =>
      rectangles_overlap x y width depth z.x z.y z.width z.depth) then false
  else true

/-- The source's `find_vehicle_position`. -/
def find_vehicle_position (garage : GarageSpace) (constraints : List Constraint)
    (placed_zones : List Zone) (width depth : ℚ) (zone_spec : ZoneSpec) :
    Option (ℚ × ℚ) :=
  (vehiclePositionsToTry garage placed_zones width depth zone_spec).find?
    (fun p => vehicleCandidateOk garage constraints placed_zones width depth p.1 p.2)

/-- The source's `find_best_wall_for_workbench`. Walls are tried in the
order produced by the stable reverse sort on the electrical-panel flag (only
the east wall is scanned for one); E/W candidates are checked with width and
depth swapped to lie along the wall. -/
def find_best_wall_for_workbench (garage : GarageSpace) (constraints : List Constraint)
    (placed_zones : List Zone) (width depth : ℚ) : Option (String × ℚ × ℚ) :=
  let walls_to_check : List (String × ℚ × ℚ) :=
    [("N", 0, clearanceFor "walkway"),
     ("E", garage.width - depth, clearanceFor "walkway"),
     ("W", 0, clearanceFor "walkway")]
  let has_electrical_E := garage.east_features.any (fun f =>
    strHasSub (strToLower f.name) "electrical" || strHasSub (strToLower f.name) "panel")
  let wallKey : String × ℚ × ℚ → Bool := fun w => if w.1 = "E" then has_electrical_E else false
  let walls_sorted := pyStableSort (fun a b => !(wallKey b) || wallKey a) walls_to_check
  walls_sorted.findSome? (fun w =>
    let wall := w.1
    if wall = "N" then
      let x := clearanceFor "walkway"
      if position_is_clear x 0 width depth garage constraints placed_zones then
        some (wall, x, 0) else none
    else if wall = "E" then
      let x := garage.width - depth
      let y := clearanceFor "walkway"
      if position_is_clear x y depth width garage constraints placed_zones then
        some (wall, x, y) else none
    else if wall = "W" then
      let y := clearanceFor "walkway"
      if position_is_clear 0 y depth width garage constraints placed_zones then
        some (wall, 0, y) else none
    else none)

/-- Number of elements of Python `range(0, stop, step)` for positive `step`. -/
def pyRangeCount (stop : Int) (step : Nat) : Nat := (stop.toNat + step - 1) / step

/-- Python `range(0, stop, step)` as a list of rationals. -/
def pyRange (stop : Int) (step : Nat) : List ℚ :=
  (List.range (pyRangeCount stop step)).map (fun i => ((i * step : Nat) : ℚ))

/-- One wall scan of `find_wall_storage_spot` at the given step (24 for the
first pass, 12 for the fallback); E/W candidates are checked with width and
depth swapped. -/
def scanWallForStorage (garage : GarageSpace) (constraints : List Constraint)
    (placed_zones : List Zone) (width depth : ℚ) (wall : String) (step : Nat) :
    Option (String × ℚ × ℚ) :=
  if wall = "N" then
    (pyRange (ratTrunc (garage.width - width)) step).findSome? (fun x =>
      if position_is_clear x 0 width depth garage constraints placed_zones then
        some (wall, x, 0) else none)
  else if wall = "E" then
    (pyRange (ratTrunc (garage.depth - width)) step).findSome? (fun y =>
      if position_is_clear (garage.width - depth) y depth width garage constraints placed_zones then
        some (wall, garage.width - depth, y) else none)
  else if wall = "W" then
    (pyRange (ratTrunc (garage.depth - width)) step).findSome? (fun y =>
      if position_is_clear 0 y depth width garage constraints placed_zones then
        some (wall, 0, y) else none)
  else none

/-- The source's `find_wall_storage_spot`: walls ordered by how many
storage sections each already has (stable, so ties keep N, E, W), scanned at
24in steps, then a 12in fallback pass in fixed order. -/
def find_wall_storage_spot (garage : GarageSpace) (constraints : List Constraint)
    (placed_zones : List Zone) (width depth : ℚ) : Option (String × ℚ × ℚ) :=
  let wallCount : String → Nat := fun w =>
    (placed_zones.filter (fun z => z.zone_type == ZoneType.wall_storage && z.wall == w)).length
  let walls := pyStableSort (fun a b => decide (wallCount a ≤ wallCount b)) ["N", "E", "W"]
  match walls.findSome? (fun w => scanWallForStorage garage constraints placed_zones width depth w 24) with
  | some r => some r
  | none =>
    (["N", "E", "W"]).findSome? (fun w => scanWallForStorage garage constraints placed_zones width depth w 12)

/-- The source's `place_zone`: dispatch on the zone type; the returned Zone
always carries the demand's own `width`/`depth` (even for E/W walls, where the
strategies validated the swapped rectangle). -/
def place_zone (zone_spec : ZoneSpec) (garage : GarageSpace)
    (constraints : List Constraint) (placed_zones : List Zone)
    (_preferences : Preferences) : Option Zone :=
  let width := zone_spec.width
  let depth := zone_spec.depth
  let name := zone_spec.name
  let priority := zone_spec.priority
  match zone_spec.ztype with
  | ZoneType.vehicle =>
    match find_vehicle_position garage constraints placed_zones width depth zone_spec with
    | some p =>
      some { zone_type := ZoneType.vehicle, name := name, x := p.1, y := p.2,
             width := width, depth := depth, wall := "S", priority := priority,
             notes := "Pull in from garage door" }
    | none => none
  | ZoneType.workbench =>
    match find_best_wall_for_workbench garage constraints placed_zones width depth with
    | some w =>
      some { zone_type := ZoneType.workbench, name := name, x := w.2.1, y := w.2.2,
             width := width, depth := depth, wall := w.1, priority := priority,
             notes := "Position for good lighting and electrical access" }
    | none => none
  | ZoneType.wall_storage =>
    match find_wall_storage_spot garage constraints placed_zones width depth with
    | some w =>
      some { zone_type := ZoneType.wall_storage, name := name, x := w.2.1, y := w.2.2,
             width := width, depth := depth, wall := w.1, priority := priority }
    | none => none
  | _ => none

/-! ## Main optimization loop (Step 3 of `optimize_layout`) -/

/-- The mutable state of the placement loop: the `placed_zones` accumulator and
the recommendation under construction. -/
structure PlacementState where
  placed_zones : List Zone
  recommendation : LayoutRecommendation
deriving Repr

/-- The reasoning string appended on a successful placement. -/
def reasoningFor (zone : Zone) : String :=
  "Placed " ++ zone.name ++ " on " ++ (if zone.wall = "" then "floor" else zone.wall)
  ++ " wall at (" ++ inches_to_feet_str zone.x ++ ", " ++ inches_to_feet_str zone.y ++ ")"

/-- The warning string appended on a failed placement. -/
def warningFor (zone_spec : ZoneSpec) : String :=
  "Could not place " ++ zone_spec.name ++ " - insufficient space"

/-- One iteration of the `for zone_spec in zones_needed` loop. -/
def placementStep (garage : GarageSpace) (preferences : Preferences)
    (st : PlacementState) (zone_spec : ZoneSpec) : PlacementState :=
  match place_zone zone_spec garage st.recommendation.constraints st.placed_zones preferences with
  | some zone =>
    { placed_zones := st.placed_zones ++ [zone],
      recommendation := { st.recommendation with
        zones := st.recommendation.zones ++ [zone],
        reasoning := st.recommendation.reasoning ++ [reasoningFor zone] } }
  | none =>
    { st with recommendation := { st.recommendation with
        warnings := st.recommendation.warnings ++ [warningFor zone_spec] } }

/-- The whole placement loop over the priority-sorted demand list. -/
def placementLoop (garage : GarageSpace) (preferences : Preferences)
    (st : PlacementState) : List ZoneSpec → PlacementState
  | [] => st
  | spec :: rest => placementLoop garage preferences (placementStep garage preferences st spec) rest

/-! ## Overhead storage pass (Step 4 of `optimize_layout`) -/

/-- One entry of the `overhead_locations` list. -/
structure OverheadLoc where
  name : String
  x : ℚ
  y : ℚ
  width : ℚ
  depth : ℚ
deriving DecidableEq, Repr

/-- The candidate overhead platforms: north (east of any workbench), west
(above the first vehicle's approach), and the fixed east platform. -/
def overheadLocations (garage : GarageSpace) (placed_zones : List Zone) : List OverheadLoc :=
  let overhead_depth : ℚ := 48
  let workbench_zones := placed_zones.filter (fun z => z.zone_type == ZoneType.workbench)
  let wb_end_x : ℚ :=
    match workbench_zones.head? with
    | some wb => wb.x + wb.width + 24
    | none => 0
  let loc1 : List OverheadLoc :=
    if wb_end_x < garage.width - 96 then
      [{ name := "Overhead Storage - North", x := wb_end_x, y := 0,
         width := min (garage.width - wb_end_x - 24) 144, depth := overhead_depth }]
    else []
  let vehicle_zones := placed_zones.filter (fun z => z.zone_type == ZoneType.vehicle)
  let loc2 : List OverheadLoc :=
    match vehicle_zones.head? with
    | some v =>
      let west_overhead_depth := min (v.y - 24) 120
      if 48 < west_overhead_depth then
        [{ name := "Overhead Storage - West", x := 0, y := 72,
           width := overhead_depth, depth := west_overhead_depth }]
      else []
    | none => []
  let loc3 : List OverheadLoc :=
    [{ name := "Overhead Storage - East", x := garage.width - overhead_depth, y := 48,
       width := overhead_depth, depth := 96 }]
  loc1 ++ loc2 ++ loc3

/-- The Zone built from an accepted overhead location. -/
def overheadZoneOf (profile : UsageProfile) (loc : OverheadLoc) : Zone :=
  { zone_type := ZoneType.overhead_storage, name := loc.name, x := loc.x, y := loc.y,
    width := loc.width, depth := loc.depth, wall := "ceiling",
    priority := profile.priorities.general_storage.getD 3,
    notes := "Mount at " ++ inches_to_feet_str 84 ++ " minimum clearance" }

/-- One iteration of the `for loc in overhead_locations` loop: append the
platform when both dimensions exceed the 36in minimum useful size; no bounds
or collision test. -/
def overheadStep (profile : UsageProfile) (acc : LayoutRecommendation)
    (loc : OverheadLoc) : LayoutRecommendation :=
  if 36 < loc.width ∧ 36 < loc.depth then
    { acc with
      zones := acc.zones ++ [overheadZoneOf profile loc],
      reasoning := acc.reasoning ++
        ["Placed " ++ loc.name ++ " (" ++ inches_to_feet_str loc.width ++ " x "
          ++ inches_to_feet_str loc.depth ++ ") - ceiling height allows"] }
  else acc

/-! ## Scoring (Step 5) and the whole engine -/

/-- The source's `calculate_layout_score`. -/
def calculate_layout_score (recommendation : LayoutRecommendation)
    (profile : UsageProfile) : ℚ :=
  let score : ℚ := 100
  let score := score - (recommendation.warnings.length : ℚ) * 15
  let vehicle_placed := recommendation.zones.any (fun z => z.zone_type == ZoneType.vehicle)
  let score :=
    if vehicle_placed = true ∧ 4 ≤ profile.priorities.vehicle_storage.getD 0 then score + 10
    else score
  let workbench_placed := recommendation.zones.any (fun z => z.zone_type == ZoneType.workbench)
  let score :=
    if workbench_placed = true ∧ 4 ≤ profile.priorities.workspace.getD 0 then score + 10
    else score
  max 0 (min 100 score)

/-- The body of `optimize_layout` before its final score assignment: constraints, demand
generation, stable priority sort (descending), placement loop, overhead pass. -/
def preScoreRecommendation (garage : GarageSpace) (profile : UsageProfile) :
    LayoutRecommendation :=
  let constraints := generate_constraints garage
  let sorted := pyStableSort (fun a b => decide (b.priority ≤ a.priority)) (zonesNeeded profile)
  let st := placementLoop garage profile.preferences
    { placed_zones := [], recommendation := { constraints := constraints } } sorted
  if profile.preferences.overhead_storage.getD false = true ∧ 96 ≤ garage.ceiling_height then
    (overheadLocations garage st.placed_zones).foldl (overheadStep profile) st.recommendation
  else st.recommendation

/-- The source's `optimize_layout`. -/
def optimize_layout (garage : GarageSpace) (profile : UsageProfile) :
    LayoutRecommendation :=
  let r := preScoreRecommendation garage profile
  { r with score := calculate_layout_score r profile }

/-! ## Concrete inputs used by the claim checks -/

/-- An empty 300×300in garage with an 8ft ceiling. -/
def g300 : GarageSpace := { width := 300, depth := 300, ceiling_height := 96 }

/-- A completely default usage profile (all lists empty, no keys set). -/
def pDef : UsageProfile := {}

/-- A 72×180in vehicle that must fit inside. -/
def stdVehicle : VehicleInfo := { length := some 180, width := some 72, must_fit_inside := true }

/-- Scenario A profile: exactly one must-fit vehicle. -/
def pA : UsageProfile := { vehicles := [stdVehicle] }

/-- Scenario B profile: two must-fit vehicles. -/
def pB : UsageProfile := { vehicles := [stdVehicle, stdVehicle] }

/-- A garage whose north wall blocks the workbench's north slot and whose
south-wall water heaters push the single vehicle to the right-aligned
candidate. -/
def gC2 : GarageSpace :=
  { width := 440, depth := 290, ceiling_height := 0,
    north_features := [⟨"Service Door", 60, 36, "service_door"⟩],
    south_features := [⟨"Water Heater", 200, 36, "water_heater"⟩,
                       ⟨"Water Heater", 100, 36, "water_heater"⟩] }

/-- Profile for `gC2`: one vehicle, one small work activity, wall storage off. -/
def pC2 : UsageProfile :=
  { vehicles := [stdVehicle],
    work_activities := [{ space_needed := "small" }],
    preferences := { wall_storage := some false } }

/-- A garage with a garage-door feature on the east wall. -/
def gC4 : GarageSpace :=
  { width := 300, depth := 300, ceiling_height := 96,
    east_features := [⟨"Garage Door", 150, 192, "garage_door"⟩] }

/-- A garage with a garage-door feature on the south wall. -/
def gC4s : GarageSpace :=
  { width := 300, depth := 300, ceiling_height := 96,
    south_features := [⟨"Garage Door", 150, 192, "garage_door"⟩] }

/-- One storage category with daily access and general-storage priority 4. -/
def pC5 : UsageProfile :=
  { storage_categories := [{ needs_accessibility := "daily" }],
    priorities := { general_storage := some 4 } }

/-- Scenario D profile: one storage category, no access flags, priority 5. -/
def pScenD : UsageProfile :=
  { storage_categories := [{}], priorities := { general_storage := some 5 } }

/-- A 300×100in garage with overhead storage enabled (wall storage off). -/
def gOv : GarageSpace := { width := 300, depth := 100, ceiling_height := 96 }

/-- Overhead-enabled profile. -/
def pOv : UsageProfile :=
  { preferences := { overhead_storage := some true, wall_storage := some false } }

/-- The first vehicle zone of Scenario B, as placed by the engine. -/
def vB1 : Zone :=
  { zone_type := ZoneType.vehicle, name := "", x := 30, y := 96, width := 96, depth := 204,
    wall := "S", priority := 3, notes := "Pull in from garage door" }

/-- The demand for the second vehicle of Scenario B. -/
def specB2 : ZoneSpec :=
  { ztype := ZoneType.vehicle, name := "", width := 96, depth := 204, priority := 3,
    vehicle_index := 1, total_vehicles := 2 }

/-- The garage-door feature of `gC4s` (south wall). -/
def fC4s : Feature := ⟨"Garage Door", 150, 192, "garage_door"⟩

/-! ## Claim checks -/

/-- C1: the claim states that every zone of the final recommendation lies
within the garage rectangle. The code violates this: with the completely
default profile in an empty 300×300 garage, the second wall-storage section is
validated against the east wall as an 18×48 rectangle but stored with its
unswapped 48×18 dimensions at x = 282, so its right edge 282 + 48 = 330
exceeds the 300in garage width. -/
theorem C1_wall_storage_out_of_bounds :
    ((optimize_layout g300 pDef).zones.map
        (fun z => (z.zone_type, z.wall, z.x, z.y, z.width, z.depth)) =
      [(ZoneType.wall_storage, "N", 0, 0, 48, 18),
       (ZoneType.wall_storage, "E", 282, 0, 48, 18)])
    ∧ g300.width < 282 + 48 := by
  with_unfolding_all decide

/-- C2: the claim states that no two non-overhead zones of the final
recommendation overlap. The code violates this: in `gC2`/`pC2` the vehicle is
pushed to the right-aligned candidate (290, 86) and the workbench is validated
on the east wall as a 60×48 rectangle but stored with its unswapped 48×60
dimensions, making the stored vehicle and workbench rectangles overlap. -/
theorem C2_stored_zones_overlap :
    ((optimize_layout gC2 pC2).zones.map
        (fun z => (z.zone_type, z.x, z.y, z.width, z.depth)) =
      [(ZoneType.vehicle, 290, 86, 120, 204), (ZoneType.workbench, 380, 30, 48, 60)])
    ∧ rectangles_overlap 290 86 120 204 380 30 48 60 = true := by
  with_unfolding_all decide

/-- C3: `rectangles_overlap` returns true iff none of the four separating
inequalities holds; it is symmetric in its two rectangles; and rectangles
that merely touch at an edge are never considered overlapping. -/
theorem C3_rectangles_overlap_spec (x1 y1 w1 h1 x2 y2 w2 h2 : ℚ) :
    (rectangles_overlap x1 y1 w1 h1 x2 y2 w2 h2 = true ↔
      ¬(x1 + w1 ≤ x2 ∨ x2 + w2 ≤ x1 ∨ y1 + h1 ≤ y2 ∨ y2 + h2 ≤ y1))
    ∧ rectangles_overlap x1 y1 w1 h1 x2 y2 w2 h2 = rectangles_overlap x2 y2 w2 h2 x1 y1 w1 h1
    ∧ (x1 + w1 = x2 → rectangles_overlap x1 y1 w1 h1 x2 y2 w2 h2 = false) := by
  refine ⟨?_, ?_, ?_⟩
  · simp [rectangles_overlap, not_or, and_assoc]
  · simp only [rectangles_overlap]
    by_cases a : x1 + w1 ≤ x2 <;> by_cases b : x2 + w2 ≤ x1 <;>
      by_cases c : y1 + h1 ≤ y2 <;> by_cases d : y2 + h2 ≤ y1 <;>
      simp [a, b, c, d]
  · intro h
    simp [rectangles_overlap, h]

/-- Witness for C3 at a concrete edge-touching pair. -/
theorem C3_witness :
    (0 : ℚ) + 2 = 2 ∧ rectangles_overlap 0 0 2 2 2 0 2 2 = false :=
  ⟨by norm_num, (C3_rectangles_overlap_spec 0 0 2 2 2 0 2 2).2.2 (by norm_num)⟩

/-- C6 (Scenario A): one must-fit 72×180 vehicle in an empty 300×300 garage
yields a single vehicle demand of width 120 and depth 204, placed on wall "S"
at the centered candidate (90, 96). -/
theorem C6_scenario_A :
    (((zonesNeeded pA).filter (fun s => s.ztype == ZoneType.vehicle)).map
        (fun s => (s.width, s.depth)) = [((120 : ℚ), 204)])
    ∧ ((optimize_layout g300 pA).zones.head?).map
        (fun z => (z.zone_type, z.wall, z.x, z.y, z.width, z.depth)) =
      some (ZoneType.vehicle, "S", 90, 96, 120, 204) := by
  with_unfolding_all decide

/-- On the south wall, a garage-door feature yields the overridden constraint:
depth 60, anchored at the wall (clamped at 0). -/
lemma mkWallConstraint_S_garage_door (garage : GarageSpace) (f : Feature)
    (hcond : (strHasSub (strToLower f.ftype) "garage_door" ||
        strHasSub (strToLower f.name) "garage door") = true) :
    mkWallConstraint garage "S" f = some
      { constraint_type := strToLower f.ftype, x := max 0 (f.position - f.width / 2),
        y := max 0 (garage.depth - 60), width := f.width, depth := 60, wall := "S",
        description := f.name ++ " - keep "
          ++ inches_to_feet_str (clearanceFor (strToLower f.ftype)) ++ " clear" } := by
  simp [mkWallConstraint, hcond]

/-- On the north wall, a garage-door feature yields the overridden constraint:
depth 60, anchored at the wall. -/
lemma mkWallConstraint_N_garage_door (garage : GarageSpace) (f : Feature)
    (hcond : (strHasSub (strToLower f.ftype) "garage_door" ||
        strHasSub (strToLower f.name) "garage door") = true) :
    mkWallConstraint garage "N" f = some
      { constraint_type := strToLower f.ftype, x := max 0 (f.position - f.width / 2),
        y := max 0 0, width := f.width, depth := 60, wall := "N",
        description := f.name ++ " - keep "
          ++ inches_to_feet_str (clearanceFor (strToLower f.ftype)) ++ " clear" } := by
  simp [mkWallConstraint, hcond]

/-- C4 counterexample: a `garage_door` feature on the east wall keeps the
generic clearance geometry (width 36, depth = the feature's 192in width); its
depth is not overridden to 60, refuting the claim for the east wall. -/
theorem C4_counterexample_east_garage_door :
    ((generate_constraints gC4).map (fun c => (c.wall, c.x, c.y, c.width, c.depth)) =
      [("E", 264, 54, 36, 192)])
    ∧ ((192 : ℚ) ≠ 60) := by
  with_unfolding_all decide

/-- C4 (amended): the garage-door override applies only on the south and north
walls. A garage-door feature on the south wall yields a constraint with
depth 60 and y = max 0 (garage.depth − 60); on the north wall depth 60 and
y = 0. -/
theorem C4_amended_garage_door_override (garage : GarageSpace) (f : Feature)
    (hgd : strHasSub (strToLower f.ftype) "garage_door" = true ∨
           strHasSub (strToLower f.name) "garage door" = true) :
    (f ∈ garage.south_features → ∃ c ∈ generate_constraints garage,
        c.wall = "S" ∧ c.depth = 60 ∧ c.y = max 0 (garage.depth - 60) ∧
        c.width = f.width ∧ c.constraint_type = strToLower f.ftype)
    ∧ (f ∈ garage.north_features → ∃ c ∈ generate_constraints garage,
        c.wall = "N" ∧ c.depth = 60 ∧ c.y = 0 ∧
        c.width = f.width ∧ c.constraint_type = strToLower f.ftype) := by
  have hcond : (strHasSub (strToLower f.ftype) "garage_door" ||
      strHasSub (strToLower f.name) "garage door") = true := by
    rcases hgd with h | h <;> simp [h]
  constructor
  · intro hf
    refine ⟨{ constraint_type := strToLower f.ftype, x := max 0 (f.position - f.width / 2),
              y := max 0 (garage.depth - 60), width := f.width, depth := 60, wall := "S",
              description := f.name ++ " - keep "
                ++ inches_to_feet_str (clearanceFor (strToLower f.ftype)) ++ " clear" },
            ?_, rfl, rfl, rfl, rfl, rfl⟩
    unfold generate_constraints
    exact List.mem_append.mpr (Or.inl (List.mem_append.mpr (Or.inr
      (List.mem_filterMap.mpr ⟨f, hf, mkWallConstraint_S_garage_door garage f hcond⟩))))
  · intro hf
    refine ⟨{ constraint_type := strToLower f.ftype, x := max 0 (f.position - f.width / 2),
              y := max 0 0, width := f.width, depth := 60, wall := "N",
              description := f.name ++ " - keep "
                ++ inches_to_feet_str (clearanceFor (strToLower f.ftype)) ++ " clear" },
            ?_, rfl, rfl, by simp, rfl, rfl⟩
    unfold generate_constraints
    exact List.mem_append.mpr (Or.inl (List.mem_append.mpr (Or.inl (List.mem_append.mpr (Or.inl
      (List.mem_filterMap.mpr ⟨f, hf, mkWallConstraint_N_garage_door garage f hcond⟩))))))

/-- Witness for C4 at the concrete south-wall garage door of `gC4s`. -/
theorem C4_witness :
    strHasSub (strToLower fC4s.ftype) "garage_door" = true ∧ fC4s ∈ gC4s.south_features ∧
    (∃ c ∈ generate_constraints gC4s,
        c.wall = "S" ∧ c.depth = 60 ∧ c.y = max 0 (gC4s.depth - 60) ∧
        c.width = fC4s.width ∧ c.constraint_type = strToLower fC4s.ftype) :=
  ⟨by decide, by with_unfolding_all decide,
   (C4_amended_garage_door_override gC4s fC4s (Or.inl (by decide))).1
     (by with_unfolding_all decide)⟩

/-- For a nonnegative rational, `ratFloor` agrees with the floor function. -/
lemma ratFloor_nonneg_eq_floor (q : ℚ) (h : 0 ≤ q) : ratFloor q = ⌊q⌋ := by
  unfold ratFloor
  rw [if_pos h]
  symm
  rw [Int.floor_eq_iff]
  set n := q.num.toNat with hn
  set d := q.den with hdq
  have hd : 0 < d := q.den_pos
  have hd' : (0 : ℚ) < (d : ℚ) := by exact_mod_cast hd
  have hnum : ((n : ℤ)) = q.num := Int.toNat_of_nonneg (Rat.num_nonneg.mpr h)
  have hq : ((n : ℚ)) / (d : ℚ) = q := by
    rw [show ((n : ℚ)) = ((q.num : ℚ)) from by exact_mod_cast hnum, hdq]
    exact Rat.num_div_den q
  constructor
  · rw [← hq, le_div_iff₀ hd']
    have hle : (n / d) * d ≤ n := Nat.div_mul_le_self _ _
    push_cast [Int.ofNat_eq_natCast]
    exact_mod_cast hle
  · rw [← hq, div_lt_iff₀ hd']
    have hlt : n < (n / d + 1) * d :=
      calc n = d * (n / d) + n % d := (Nat.div_add_mod n d).symm
        _ < d * (n / d) + d := Nat.add_lt_add_left (Nat.mod_lt _ hd) _
        _ = (n / d + 1) * d := by ring
    push_cast [Int.ofNat_eq_natCast]
    exact_mod_cast hlt

/-- Truncation of `n × 1.5` for a natural `n` is `(3n)/2` in natural division. -/
lemma ratTrunc_three_halves (n : ℕ) :
    ratTrunc ((n : ℚ) * (3 / 2)) = ((3 * n) / 2 : ℕ) := by
  have h0 : (0 : ℚ) ≤ (n : ℚ) * (3 / 2) := by positivity
  unfold ratTrunc
  rw [if_pos h0, ratFloor_nonneg_eq_floor _ h0]
  rcases Nat.even_or_odd n with he | ho
  · obtain ⟨k, hk⟩ := he
    subst hk
    have h1 : ((k + k : ℕ) : ℚ) * (3 / 2) = ((3 * k : ℕ) : ℚ) := by push_cast; ring
    rw [h1, Int.floor_natCast]
    have h2 : (3 * (k + k)) / 2 = 3 * k := by omega
    rw [h2]
  · obtain ⟨k, hk⟩ := ho
    subst hk
    have h1 : ((2 * k + 1 : ℕ) : ℚ) * (3 / 2) = (3 * (k : ℚ)) + 3 / 2 := by push_cast; ring
    rw [h1]
    have h2 : ⌊(3 * (k : ℚ)) + 3 / 2⌋ = 3 * (k : ℤ) + 1 := by
      rw [Int.floor_eq_iff]
      constructor
      · push_cast
        linarith
      · push_cast
        linarith
    rw [h2]
    have h3 : (3 * (2 * k + 1)) / 2 = 3 * k + 1 := by omega
    rw [h3]
    push_cast
    ring

/-- C5 counterexample: with one daily-access storage category and
general-storage priority 4 the base count is 5, and the engine generates
`min(15, int(5×1.5)) = 7` wall-storage demands, while the claim's
`min(15, round(5×1.5)) = 8`. -/
theorem C5_counterexample_round_vs_trunc :
    wallStorageDemandCount pC5 = 7
    ∧ min 15 (specRoundHalfToEven ((2 + 1 + 2 * 1 + 0 : ℚ) * (3 / 2))) = 8
    ∧ (7 : ℕ) ≠ 8 := by
  with_unfolding_all decide

/-- C5 (amended): with the wall-storage preference enabled, the number of
WALL_STORAGE demands is 20 at priority ≥ 5, `min(15, ⌊3·base/2⌋)` (Python
`int()` truncation, not rounding) at priority ≥ 4, and `min(8, base)`
otherwise, where base = 2 + categories + 2·daily + weekly. -/
theorem C5_amended_demand_count (profile : UsageProfile)
    (hpref : profile.preferences.wall_storage.getD true = true) :
    wallStorageDemandCount profile =
      (let cnt := profile.storage_categories.length
       let daily := (profile.storage_categories.filter
         (fun s => s.needs_accessibility == "daily")).length
       let weekly := (profile.storage_categories.filter
         (fun s => s.needs_accessibility == "weekly")).length
       let base := 2 + cnt + 2 * daily + weekly
       let p := profile.priorities.general_storage.getD 3
       if 5 ≤ p then 20 else if 4 ≤ p then min 15 ((3 * base) / 2) else min 8 base) := by
  have hveh : (vehicleDemands profile).filter (fun s => s.ztype == ZoneType.wall_storage) = [] := by
    rw [List.filter_eq_nil_iff]
    intro s hs
    unfold vehicleDemands at hs
    simp only [List.mem_map] at hs
    obtain ⟨iv, _, rfl⟩ := hs
    simp
  have hwb : (workbenchDemands profile).filter (fun s => s.ztype == ZoneType.wall_storage) = [] := by
    unfold workbenchDemands
    split
    · simp
    · simp
  have hws : (wallStorageDemands profile).filter (fun s => s.ztype == ZoneType.wall_storage) =
      wallStorageDemands profile := by
    rw [List.filter_eq_self]
    intro s hs
    unfold wallStorageDemands at hs
    rw [if_pos hpref] at hs
    simp only [List.mem_map] at hs
    obtain ⟨i, _, rfl⟩ := hs
    simp
  unfold wallStorageDemandCount zonesNeeded
  rw [List.filter_append, List.filter_append, hveh, hwb, hws]
  simp only [List.nil_append, List.append_nil]
  unfold wallStorageDemands
  rw [if_pos hpref]
  simp only [List.length_map, List.length_range]
  set cnt := profile.storage_categories.length with hcnt
  set daily := (profile.storage_categories.filter
    (fun s => s.needs_accessibility == "daily")).length with hdaily
  set weekly := (profile.storage_categories.filter
    (fun s => s.needs_accessibility == "weekly")).length with hweekly
  set p := profile.priorities.general_storage.getD 3 with hp
  by_cases h5 : 5 ≤ p
  · simp [h5]
  · by_cases h4 : 4 ≤ p
    · simp only [h5, h4, if_false, if_true]
      have hcast : (((2 : ℤ) + (cnt : ℤ) + ((daily : ℤ) * 2) + (weekly : ℤ) : ℤ) : ℚ) =
          ((2 + cnt + 2 * daily + weekly : ℕ) : ℚ) := by
        push_cast
        ring
      rw [hcast, ratTrunc_three_halves]
      omega
    · simp only [h5, h4, if_false]
      omega

/-- Witness for C5 at the Scenario D profile: priority 5 yields exactly 20
wall-storage demands. -/
theorem C5_witness :
    pScenD.preferences.wall_storage.getD true = true ∧ wallStorageDemandCount pScenD = 20 :=
  ⟨rfl, (C5_amended_demand_count pScenD rfl).trans (by with_unfolding_all decide)⟩

/-- C7 (Scenario B): two must-fit 72×180 vehicles each yield a 96×204 demand;
the first is placed at the walkway offset (30, 96) and the second at
(138, 96); in general every vehicle after the first has exactly one candidate
position (east of the previous vehicle plus a 12in gap, same y) and placement
fails when that single candidate fails. -/
theorem C7_scenario_B :
    ((((zonesNeeded pB).filter (fun s => s.ztype == ZoneType.vehicle)).map
        (fun s => (s.width, s.depth)) = [((96 : ℚ), 204), (96, 204)])
      ∧ ((optimize_layout g300 pB).zones.take 2).map
          (fun z => (z.zone_type, z.x, z.y, z.width, z.depth)) =
        [(ZoneType.vehicle, 30, 96, 96, 204), (ZoneType.vehicle, 138, 96, 96, 204)])
    ∧ ∀ (garage : GarageSpace) (placed : List Zone) (width depth : ℚ) (spec : ZoneSpec)
        (last_vehicle : Zone),
        spec.total_vehicles ≠ 1 →
        (placed.filter (fun z => z.zone_type == ZoneType.vehicle)).getLast? = some last_vehicle →
        (vehiclePositionsToTry garage placed width depth spec =
            [(last_vehicle.x + last_vehicle.width + 12, garage.depth - depth)]
          ∧ ∀ (constraints : List Constraint),
              vehicleCandidateOk garage constraints placed width depth
                (last_vehicle.x + last_vehicle.width + 12) (garage.depth - depth) = false →
              find_vehicle_position garage constraints placed width depth spec = none) := by
  refine ⟨by with_unfolding_all decide, ?_⟩
  intro garage placed width depth spec last_vehicle hn hlast
  have hpos : vehiclePositionsToTry garage placed width depth spec =
      [(last_vehicle.x + last_vehicle.width + 12, garage.depth - depth)] := by
    simp only [vehiclePositionsToTry]
    rw [if_neg hn, hlast]
  refine ⟨hpos, ?_⟩
  intro constraints hok
  unfold find_vehicle_position
  rw [hpos]
  simp [List.find?, hok]

/-- Witness for C7: in Scenario B the second vehicle's single candidate is
directly east of the first vehicle plus the 12in gap. -/
theorem C7_witness :
    specB2.total_vehicles ≠ 1
    ∧ ([vB1].filter (fun z => z.zone_type == ZoneType.vehicle)).getLast? = some vB1
    ∧ vehiclePositionsToTry g300 [vB1] 96 204 specB2 =
        [(vB1.x + vB1.width + 12, g300.depth - (204 : ℚ))] :=
  ⟨by decide, by with_unfolding_all decide,
   ((C7_scenario_B).2 g300 [vB1] 96 204 specB2 vB1 (by decide)
     (by with_unfolding_all decide)).1⟩

/-- Closed form of `calculate_layout_score`. -/
lemma calculate_layout_score_eq (recommendation : LayoutRecommendation)
    (profile : UsageProfile) :
    calculate_layout_score recommendation profile =
      max 0 (min 100 ((100 : ℚ) - 15 * (recommendation.warnings.length : ℚ)
        + (if (recommendation.zones.any (fun z => z.zone_type == ZoneType.vehicle)) = true
            ∧ 4 ≤ profile.priorities.vehicle_storage.getD 0 then 10 else 0)
        + (if (recommendation.zones.any (fun z => z.zone_type == ZoneType.workbench)) = true
            ∧ 4 ≤ profile.priorities.workspace.getD 0 then 10 else 0))) := by
  simp only [calculate_layout_score]
  split_ifs with h1 h2 <;> ring_nf

/-- C8: the final score is 100 minus 15 per warning, plus 10 when a vehicle
zone was placed with vehicle-storage priority ≥ 4, plus 10 when a workbench
zone was placed with workspace priority ≥ 4, clamped to [0, 100]. -/
theorem C8_score_formula (garage : GarageSpace) (profile : UsageProfile) :
    (optimize_layout garage profile).score =
      max 0 (min 100 ((100 : ℚ)
        - 15 * ((optimize_layout garage profile).warnings.length : ℚ)
        + (if ((optimize_layout garage profile).zones.any
              (fun z => z.zone_type == ZoneType.vehicle)) = true
            ∧ 4 ≤ profile.priorities.vehicle_storage.getD 0 then 10 else 0)
        + (if ((optimize_layout garage profile).zones.any
              (fun z => z.zone_type == ZoneType.workbench)) = true
            ∧ 4 ≤ profile.priorities.workspace.getD 0 then 10 else 0))) :=
  calculate_layout_score_eq (preScoreRecommendation garage profile) profile

/-- C9: each demand of the placement loop either appends exactly one zone to
the placed list and the result's zones together with one reasoning string, or
appends exactly one warning string naming the zone while leaving the placed
list, zones and reasoning unchanged; either way the loop continues with the
remaining demands. -/
theorem C9_placement_step_dichotomy (garage : GarageSpace) (preferences : Preferences)
    (st : PlacementState) (spec : ZoneSpec) (rest : List ZoneSpec) :
    ((∃ z, place_zone spec garage st.recommendation.constraints st.placed_zones preferences
          = some z
        ∧ placementStep garage preferences st spec =
          { placed_zones := st.placed_zones ++ [z],
            recommendation := { st.recommendation with
              zones := st.recommendation.zones ++ [z],
              reasoning := st.recommendation.reasoning ++ [reasoningFor z] } })
      ∨ (place_zone spec garage st.recommendation.constraints st.placed_zones preferences
          = none
        ∧ placementStep garage preferences st spec =
          { st with recommendation := { st.recommendation with
              warnings := st.recommendation.warnings ++
                ["Could not place " ++ spec.name ++ " - insufficient space"] } }))
    ∧ placementLoop garage preferences st (spec :: rest) =
        placementLoop garage preferences (placementStep garage preferences st spec) rest := by
  obtain ⟨placed, zs, cs, rs, ws, sc⟩ := st
  constructor
  · cases h : place_zone spec garage cs placed preferences with
    | some z => exact Or.inl ⟨z, rfl, by simp [placementStep, warningFor, h]⟩
    | none => exact Or.inr ⟨rfl, by simp [placementStep, warningFor, h]⟩
  · rfl

/-- Folding the overhead loop over a location list ending in an accepted
location makes that location's platform the last zone. -/
lemma foldl_overheadStep_concat_getLast (profile : UsageProfile) (l : List OverheadLoc)
    (acc : LayoutRecommendation) (e : OverheadLoc)
    (he : (36 : ℚ) < e.width ∧ (36 : ℚ) < e.depth) :
    ((l ++ [e]).foldl (overheadStep profile) acc).zones.getLast? =
      some (overheadZoneOf profile e) := by
  rw [List.foldl_append]
  simp only [List.foldl_cons, List.foldl_nil]
  unfold overheadStep
  rw [if_pos he]
  exact List.getLast?_concat _

/-- C10: whenever the overhead pass runs (preference enabled, ceiling ≥ 96),
the fixed "Overhead Storage - East" platform (48×96 at x = width − 48, y = 48)
is unconditionally appended as the last zone, for every garage and profile —
no bounds or collision check is applied. -/
theorem C10_overhead_east_unconditional (garage : GarageSpace) (profile : UsageProfile)
    (hpref : profile.preferences.overhead_storage.getD false = true)
    (hceil : (96 : ℚ) ≤ garage.ceiling_height) :
    ((optimize_layout garage profile).zones.getLast?).map
        (fun z => (z.zone_type, z.name, z.x, z.y, z.width, z.depth, z.wall)) =
      some (ZoneType.overhead_storage, "Overhead Storage - East",
        garage.width - 48, 48, 48, 96, "ceiling") := by
  have hz : (optimize_layout garage profile).zones =
      (preScoreRecommendation garage profile).zones := rfl
  rw [hz]
  simp only [preScoreRecommendation]
  rw [if_pos ⟨hpref, hceil⟩]
  simp only [overheadLocations]
  rw [foldl_overheadStep_concat_getLast profile _ _ _ (by norm_num)]
  simp [overheadZoneOf]

/-- Witness for C10: in a 300×100 garage the east platform is still appended,
extending past the 100in south boundary (48 + 96 = 144 > 100). -/
theorem C10_witness :
    (pOv.preferences.overhead_storage.getD false = true ∧ (96 : ℚ) ≤ gOv.ceiling_height)
    ∧ ((optimize_layout gOv pOv).zones.getLast?).map
        (fun z => (z.zone_type, z.name, z.x, z.y, z.width, z.depth, z.wall)) =
      some (ZoneType.overhead_storage, "Overhead Storage - East",
        gOv.width - 48, 48, 48, 96, "ceiling") :=
  ⟨⟨rfl, by decide⟩, C10_overhead_east_unconditional gOv pOv rfl (by decide)⟩

end Garage
